import Mathlib

/-!
Verification of the `request_guild_members` payload module of twilight-model.

The Rust source lives in `src/model/src/gateway/payload/request_guild_members.rs`.
Pure data types become Lean structures and inductives; the builder's methods
become Lean functions; the fallible `user_ids` terminal returns `Except`.
Serialization (serde derive with `skip_serializing_if` and the untagged
`RequestGuildMemberId`) is modelled over an explicit JSON value type.
-/

namespace Twilight

/-- Guild identifier, an opaque wrapper around a machine integer
(external collaborator `crate::id::GuildId`). -/
structure GuildId where
  id : Nat
deriving DecidableEq, Repr

/-- User identifier, an opaque wrapper around a machine integer
(external collaborator `crate::id::UserId`). -/
structure UserId where
  id : Nat
deriving DecidableEq, Repr

/-- Modelled from the spec: the external `OpCode` enumeration is out of the
core's scope; only the constant this payload uses, `RequestGuildMembers`,
is represented. -/
inductive OpCode where
  | RequestGuildMembers
deriving DecidableEq, Repr

/-- Error returned by `RequestGuildMembersBuilder.user_ids`
(`enum UserIdsError`, lines 16-22 of the source). -/
inductive UserIdsError where
  | TooMany (ids : List UserId)
deriving DecidableEq, Repr

/-- One or a list of IDs in a request (`enum RequestGuildMemberId<T>`,
lines 244-249; serde `untagged`). -/
inductive RequestGuildMemberId (T : Type) where
  | One (id : T)
  | Multiple (ids : List T)
deriving DecidableEq, Repr

/-- Embeds `impl<T> From<T> for RequestGuildMemberId<T>` (lines 251-255). -/
def RequestGuildMemberId.fromId {T : Type} (id : T) : RequestGuildMemberId T :=
  RequestGuildMemberId.One id

/-- Embeds `impl<T> From<Vec<T>> for RequestGuildMemberId<T>` (lines 257-261). -/
def RequestGuildMemberId.fromVec {T : Type} (ids : List T) : RequestGuildMemberId T :=
  RequestGuildMemberId.Multiple ids

/-- Payload body (`struct RequestGuildMembersInfo`, lines 224-239).
Every `Option` field carries serde `skip_serializing_if = "Option::is_none"`. -/
structure RequestGuildMembersInfo where
  guild_id : GuildId
  limit : Option Nat
  nonce : Option String
  presences : Option Bool
  query : Option String
  user_ids : Option (RequestGuildMemberId UserId)
deriving DecidableEq, Repr

/-- Envelope (`struct RequestGuildMembers`, lines 37-41): payload body `d`
plus the opcode `op`. -/
structure RequestGuildMembers where
  d : RequestGuildMembersInfo
  op : OpCode
deriving DecidableEq, Repr

/-- Builder state (`struct RequestGuildMembersBuilder`, lines 53-57). -/
structure RequestGuildMembersBuilder where
  guild_id : GuildId
  nonce : Option String
  presences : Option Bool
deriving DecidableEq, Repr

namespace RequestGuildMembersBuilder

/-- `RequestGuildMembersBuilder::new` (lines 62-68). -/
def new (guild_id : GuildId) : RequestGuildMembersBuilder :=
  { guild_id := guild_id, nonce := none, presences := none }

/-- `RequestGuildMembersBuilder::_nonce` (lines 77-81): `Option::replace`
overwrites any previous nonce. The public `nonce` method is a thin
`Into<String>` wrapper around this. -/
def _nonce (b : RequestGuildMembersBuilder) (nonce : String) : RequestGuildMembersBuilder :=
  { b with nonce := some nonce }

/-- `RequestGuildMembersBuilder::presences` (lines 86-90). Named `_presences`
here because the structure field projection already takes the source name. -/
def _presences (b : RequestGuildMembersBuilder) (presences : Bool) : RequestGuildMembersBuilder :=
  { b with presences := some presences }

/-- `RequestGuildMembersBuilder::_query` (lines 123-135): `limit` becomes
`Some(limit.unwrap_or_default())`, i.e. the supplied value or `0`. -/
def _query (b : RequestGuildMembersBuilder) (query : String) (limit : Option Nat) :
    RequestGuildMembers :=
  { d := { guild_id := b.guild_id
           limit := some (limit.getD 0)
           nonce := b.nonce
           presences := b.presences
           query := some query
           user_ids := none }
    op := OpCode.RequestGuildMembers }

/-- `RequestGuildMembersBuilder::user_id` (lines 156-168). -/
def user_id (b : RequestGuildMembersBuilder) (u : UserId) : RequestGuildMembers :=
  { d := { guild_id := b.guild_id
           limit := none
           nonce := b.nonce
           presences := b.presences
           query := none
           user_ids := some (RequestGuildMemberId.One u) }
    op := OpCode.RequestGuildMembers }

/-- `RequestGuildMembersBuilder::_user_ids` (lines 205-221): rejects more
than 100 IDs, carrying the full input list in the error. -/
def _user_ids (b : RequestGuildMembersBuilder) (user_ids : List UserId) :
    Except UserIdsError RequestGuildMembers :=
  if user_ids.length > 100 then
    Except.error (UserIdsError.TooMany user_ids)
  else
    Except.ok
      { d := { guild_id := b.guild_id
               limit := none
               nonce := b.nonce
               presences := b.presences
               query := none
               user_ids := some (RequestGuildMemberId.Multiple user_ids) }
        op := OpCode.RequestGuildMembers }

end RequestGuildMembersBuilder

/-- `RequestGuildMembers::builder` (lines 48-50), an alias for
`RequestGuildMembersBuilder::new`. -/
def RequestGuildMembers.builder (guild_id : GuildId) : RequestGuildMembersBuilder :=
  RequestGuildMembersBuilder.new guild_id

/-- Spec invariant on produced payloads: exactly one of `query` and
`user_ids` is populated, and `limit` is populated iff `query` is. -/
def validSelection (r : RequestGuildMembers) : Prop :=
  r.d.query.isSome = !r.d.user_ids.isSome ∧ r.d.limit.isSome = r.d.query.isSome

/-! JSON model of the wire format produced by the serde derives. -/

/-- JSON values, the target of serialization. -/
inductive Json where
  | num (n : Nat)
  | str (s : String)
  | bool (b : Bool)
  | arr (items : List Json)
  | obj (fields : List (String × Json))

/-- Field lookup in a JSON object. -/
def Json.getField (j : Json) (key : String) : Option Json :=
  match j with
  | .obj fields => fields.lookup key
  | _ => none

/-- Identifier wire form (external collaborator: IDs serialize as their
underlying value). -/
def serializeUserId (u : UserId) : Json := Json.num u.id

/-- Guild identifier wire form. -/
def serializeGuildId (g : GuildId) : Json := Json.num g.id

/-- Serde `untagged` serialization of `RequestGuildMemberId`: a single ID
serializes as the bare value, a list as a JSON array. -/
def serializeRequestGuildMemberId : RequestGuildMemberId UserId → Json
  | .One u => serializeUserId u
  | .Multiple us => Json.arr (us.map serializeUserId)

/-- An optional field with serde `skip_serializing_if = "Option::is_none"`:
emitted only when present. -/
def optField (key : String) (v : Option Json) : List (String × Json) :=
  match v with
  | some j => [(key, j)]
  | none => []

/-- Serialization of the payload body: fields in declaration order, absent
options omitted entirely. -/
def serializeRequestGuildMembersInfo (i : RequestGuildMembersInfo) : Json :=
  Json.obj ([("guild_id", serializeGuildId i.guild_id)]
    ++ optField "limit" (i.limit.map Json.num)
    ++ optField "nonce" (i.nonce.map Json.str)
    ++ optField "presences" (i.presences.map Json.bool)
    ++ optField "query" (i.query.map Json.str)
    ++ optField "user_ids" (i.user_ids.map serializeRequestGuildMemberId))

/-- Modelled from the spec: the external opcode constant's wire value for
"request guild members" (a fixed integer). -/
def serializeOpCode : OpCode → Json
  | .RequestGuildMembers => Json.num 8

/-- Serialization of the envelope: fields `d` then `op`. -/
def serializeRequestGuildMembers (r : RequestGuildMembers) : Json :=
  Json.obj [("d", serializeRequestGuildMembersInfo r.d), ("op", serializeOpCode r.op)]

/-- Deserialization of a user ID: accepts only the bare value shape. -/
def deserializeUserId : Json → Option UserId
  | .num n => some ⟨n⟩
  | _ => none

/-- Deserialization of a guild ID. -/
def deserializeGuildId : Json → Option GuildId
  | .num n => some ⟨n⟩
  | _ => none

/-- Deserialization of a numeric field. -/
def deserializeNat : Json → Option Nat
  | .num n => some n
  | _ => none

/-- Deserialization of a string field. -/
def deserializeStr : Json → Option String
  | .str s => some s
  | _ => none

/-- Deserialization of a boolean field. -/
def deserializeBool : Json → Option Bool
  | .bool b => some b
  | _ => none

/-- Deserialization of a list of user IDs, failing if any element fails. -/
def deserializeUserIdList : List Json → Option (List UserId)
  | [] => some []
  | j :: js =>
    match deserializeUserId j, deserializeUserIdList js with
    | some u, some us => some (u :: us)
    | _, _ => none

/-- Serde `untagged` deserialization of `RequestGuildMemberId`: variants are
tried in declaration order, `One` (bare value) before `Multiple` (array). -/
def deserializeRequestGuildMemberId (j : Json) : Option (RequestGuildMemberId UserId) :=
  match deserializeUserId j with
  | some u => some (RequestGuildMemberId.One u)
  | none =>
    match j with
    | .arr items => (deserializeUserIdList items).map RequestGuildMemberId.Multiple
    | _ => none

/-- Deserialization of an optional field: a missing key yields `none`, a
present key must deserialize. -/
def getOptField {α : Type} (j : Json) (key : String) (des : Json → Option α) :
    Option (Option α) :=
  match j.getField key with
  | none => some none
  | some v => (des v).map some

/-- Deserialization of the payload body. -/
def deserializeRequestGuildMembersInfo (j : Json) : Option RequestGuildMembersInfo :=
  match j.getField "guild_id" with
  | none => none
  | some gj =>
    match deserializeGuildId gj with
    | none => none
    | some g =>
      match getOptField j "limit" deserializeNat,
            getOptField j "nonce" deserializeStr,
            getOptField j "presences" deserializeBool,
            getOptField j "query" deserializeStr,
            getOptField j "user_ids" deserializeRequestGuildMemberId with
      | some l, some n, some p, some q, some u =>
        some { guild_id := g, limit := l, nonce := n, presences := p, query := q, user_ids := u }
      | _, _, _, _, _ => none

/-- Deserialization of the opcode constant. -/
def deserializeOpCode : Json → Option OpCode
  | .num 8 => some OpCode.RequestGuildMembers
  | _ => none

/-- Deserialization of the envelope. -/
def deserializeRequestGuildMembers (j : Json) : Option RequestGuildMembers :=
  match j.getField "d", j.getField "op" with
  | some dj, some oj =>
    match deserializeRequestGuildMembersInfo dj, deserializeOpCode oj with
    | some d, some op => some { d := d, op := op }
    | _, _ => none
  | _, _ => none

/-! Helper lemmas for the serialization round-trip. -/

/-- Deserializing the element-wise serialization of a user-ID list recovers
the list. -/
theorem deserializeUserIdList_map (us : List UserId) :
    deserializeUserIdList (us.map serializeUserId) = some us := by
  induction us with
  | nil => rfl
  | cons u us ih =>
    simp [deserializeUserIdList, serializeUserId, deserializeUserId, ih]

/-- The untagged identifier-selection value round-trips: a `One` serializes
as a bare value and decodes as `One`; a `Multiple` serializes as an array
and decodes as `Multiple` (the bare-value attempt fails on an array). -/
theorem serializeRequestGuildMemberId_roundtrip (x : RequestGuildMemberId UserId) :
    deserializeRequestGuildMemberId (serializeRequestGuildMemberId x) = some x := by
  cases x with
  | One u => rfl
  | Multiple us =>
    simp [serializeRequestGuildMemberId, deserializeRequestGuildMemberId,
      deserializeUserId, deserializeUserIdList_map]

/-- The payload body round-trips through serialization for every value. -/
theorem serializeRequestGuildMembersInfo_roundtrip (i : RequestGuildMembersInfo) :
    deserializeRequestGuildMembersInfo (serializeRequestGuildMembersInfo i) = some i := by
  obtain ⟨g, l, n, p, q, u⟩ := i
  cases l <;> cases n <;> cases p <;> cases q <;> cases u <;>
    simp [serializeRequestGuildMembersInfo, deserializeRequestGuildMembersInfo,
      getOptField, Json.getField, optField, serializeGuildId, deserializeGuildId,
      deserializeNat, deserializeStr, deserializeBool, List.lookup,
      serializeRequestGuildMemberId_roundtrip]

/-- The envelope round-trips through serialization for every value. -/
theorem serializeRequestGuildMembers_roundtrip (r : RequestGuildMembers) :
    deserializeRequestGuildMembers (serializeRequestGuildMembers r) = some r := by
  obtain ⟨d, op⟩ := r
  cases op
  simp [serializeRequestGuildMembers, deserializeRequestGuildMembers, Json.getField,
    serializeOpCode, deserializeOpCode, List.lookup,
    serializeRequestGuildMembersInfo_roundtrip]

/-! Claim theorems. -/

/-- Claim C1: for every builder and every user-ID sequence longer than 100,
`user_ids` fails with `TooMany`, and the error carries the original input
sequence exactly; no payload is produced (the result is `error`, not `ok`). -/
theorem c1_user_ids_too_many (b : RequestGuildMembersBuilder) (ids : List UserId)
    (h : 100 < ids.length) :
    b._user_ids ids = Except.error (UserIdsError.TooMany ids) := by
  simp [RequestGuildMembersBuilder._user_ids, h]

/-- Claim C1 witness: a builder for guild 1 with 101 distinct user IDs fails
with `TooMany` carrying the full input list. -/
theorem c1_user_ids_too_many_witness :
    (RequestGuildMembersBuilder.new ⟨1⟩)._user_ids ((List.range 101).map UserId.mk) =
      Except.error (UserIdsError.TooMany ((List.range 101).map UserId.mk)) :=
  c1_user_ids_too_many _ _ (by decide)

/-- Claim C2: for every builder and every user-ID sequence of length at most
100, `user_ids` succeeds, and the payload has `user_ids` set to the
`Multiple` variant containing exactly the input sequence (order and
duplicates preserved), with `query` and `limit` absent. -/
theorem c2_user_ids_ok (b : RequestGuildMembersBuilder) (ids : List UserId)
    (h : ids.length ≤ 100) :
    b._user_ids ids = Except.ok
      { d := { guild_id := b.guild_id
               limit := none
               nonce := b.nonce
               presences := b.presences
               query := none
               user_ids := some (RequestGuildMemberId.Multiple ids) }
        op := OpCode.RequestGuildMembers } := by
  simp [RequestGuildMembersBuilder._user_ids, Nat.not_lt.mpr h]

/-- Claim C2 witness: a list with a duplicate (length 3 ≤ 100) succeeds and
is kept verbatim, duplicates and order included. -/
theorem c2_user_ids_ok_witness :
    (RequestGuildMembersBuilder.new ⟨1⟩)._user_ids [⟨2⟩, ⟨3⟩, ⟨2⟩] = Except.ok
      { d := { guild_id := ⟨1⟩
               limit := none
               nonce := none
               presences := none
               query := none
               user_ids := some (RequestGuildMemberId.Multiple [⟨2⟩, ⟨3⟩, ⟨2⟩]) }
        op := OpCode.RequestGuildMembers } :=
  c2_user_ids_ok _ _ (by decide)

/-- Claim C3: for every builder, query string and optional limit, `query`
always succeeds; the payload has `query` equal to the given string,
`limit` equal to the supplied value when given and `0` when absent (so
`limit` is never absent in this mode), and `user_ids` absent. -/
theorem c3_query_total (b : RequestGuildMembersBuilder) (q : String)
    (l : Option Nat) (v : Nat) :
    (b._query q l).d.query = some q ∧
    (b._query q l).d.user_ids = none ∧
    (b._query q l).d.limit = some (l.getD 0) ∧
    (b._query q (some v)).d.limit = some v ∧
    (b._query q none).d.limit = some 0 :=
  ⟨rfl, rfl, rfl, rfl, rfl⟩

/-- Claim C4: for every builder and user ID, `user_id` always succeeds and
yields a payload with `user_ids` set to the `One` variant wrapping that
identifier, and `query` and `limit` both absent. -/
theorem c4_user_id_one (b : RequestGuildMembersBuilder) (u : UserId) :
    b.user_id u =
      { d := { guild_id := b.guild_id
               limit := none
               nonce := b.nonce
               presences := b.presences
               query := none
               user_ids := some (RequestGuildMemberId.One u) }
        op := OpCode.RequestGuildMembers } :=
  rfl

/-- Claim C5: every payload produced by any of the three terminal methods
has exactly one of `query` and `user_ids` populated, and `limit` populated
iff `query` is populated. -/
theorem c5_selection_invariant :
    (∀ (b : RequestGuildMembersBuilder) (q : String) (l : Option Nat),
      validSelection (b._query q l)) ∧
    (∀ (b : RequestGuildMembersBuilder) (u : UserId), validSelection (b.user_id u)) ∧
    (∀ (b : RequestGuildMembersBuilder) (ids : List UserId),
      match b._user_ids ids with
      | .ok r => validSelection r
      | .error _ => True) := by
  refine ⟨fun b q l => ⟨rfl, rfl⟩, fun b u => ⟨rfl, rfl⟩, fun b ids => ?_⟩
  by_cases h : 100 < ids.length
  · simp [RequestGuildMembersBuilder._user_ids, h]
  · simp [RequestGuildMembersBuilder._user_ids, h, validSelection]

/-- Claim C6: setting `nonce` or `presences` twice keeps only the last-set
value (no error), the finished payload reflects that value, and a modifier
never called leaves the corresponding payload field absent in every
terminal mode. -/
theorem c6_modifiers_last_wins (b : RequestGuildMembersBuilder)
    (n1 n2 : String) (p1 p2 : Bool) (g : GuildId) (q : String) (l : Option Nat)
    (u : UserId) (ids : List UserId) :
    (b._nonce n1)._nonce n2 = b._nonce n2 ∧
    (b._presences p1)._presences p2 = b._presences p2 ∧
    ((b._nonce n2)._query q l).d.nonce = some n2 ∧
    ((b._presences p2).user_id u).d.presences = some p2 ∧
    ((RequestGuildMembersBuilder.new g)._query q l).d.nonce = none ∧
    ((RequestGuildMembersBuilder.new g)._query q l).d.presences = none ∧
    ((RequestGuildMembersBuilder.new g).user_id u).d.nonce = none ∧
    ((RequestGuildMembersBuilder.new g).user_id u).d.presences = none ∧
    (match (RequestGuildMembersBuilder.new g)._user_ids ids with
     | .ok r => r.d.nonce = none ∧ r.d.presences = none
     | .error _ => True) := by
  refine ⟨rfl, rfl, rfl, rfl, rfl, rfl, rfl, rfl, ?_⟩
  by_cases h : 100 < ids.length
  · simp [RequestGuildMembersBuilder._user_ids, h]
  · simp [RequestGuildMembersBuilder._user_ids, h, RequestGuildMembersBuilder.new]

/-- Claim C7: the `guild_id` of every produced payload equals the guild ID
supplied at builder creation; neither modifier nor terminal calls change
it. -/
theorem c7_guild_id_immutable (g : GuildId) (b : RequestGuildMembersBuilder)
    (n : String) (p : Bool) (q : String) (l : Option Nat) (u : UserId)
    (ids : List UserId) :
    (RequestGuildMembersBuilder.new g).guild_id = g ∧
    (RequestGuildMembers.builder g).guild_id = g ∧
    (b._nonce n).guild_id = b.guild_id ∧
    (b._presences p).guild_id = b.guild_id ∧
    (b._query q l).d.guild_id = b.guild_id ∧
    (b.user_id u).d.guild_id = b.guild_id ∧
    (match b._user_ids ids with
     | .ok r => r.d.guild_id = b.guild_id
     | .error _ => True) := by
  refine ⟨rfl, rfl, rfl, rfl, rfl, rfl, ?_⟩
  by_cases h : 100 < ids.length
  · simp [RequestGuildMembersBuilder._user_ids, h]
  · simp [RequestGuildMembersBuilder._user_ids, h]

/-- Claim C8: every payload the core produces carries the fixed
`RequestGuildMembers` opcode in its `op` field; no construction path can
set any other value. -/
theorem c8_opcode_fixed (b : RequestGuildMembersBuilder) (q : String)
    (l : Option Nat) (u : UserId) (ids : List UserId) :
    (b._query q l).op = OpCode.RequestGuildMembers ∧
    (b.user_id u).op = OpCode.RequestGuildMembers ∧
    (match b._user_ids ids with
     | .ok r => r.op = OpCode.RequestGuildMembers
     | .error _ => True) := by
  refine ⟨rfl, rfl, ?_⟩
  by_cases h : 100 < ids.length
  · simp [RequestGuildMembersBuilder._user_ids, h]
  · simp [RequestGuildMembersBuilder._user_ids, h]

/-- Claim C9: every payload produced by the three terminal methods
round-trips through serialization; a one-element `Multiple` serializes as a
list and decodes back to `Multiple` (it never collapses into `One`, and the
two variants are distinct values); absent optional fields are omitted from
the serialized object entirely. -/
theorem c9_roundtrip :
    (∀ (b : RequestGuildMembersBuilder) (q : String) (l : Option Nat),
      deserializeRequestGuildMembers (serializeRequestGuildMembers (b._query q l)) =
        some (b._query q l)) ∧
    (∀ (b : RequestGuildMembersBuilder) (u : UserId),
      deserializeRequestGuildMembers (serializeRequestGuildMembers (b.user_id u)) =
        some (b.user_id u)) ∧
    (∀ (b : RequestGuildMembersBuilder) (ids : List UserId),
      match b._user_ids ids with
      | .ok r => deserializeRequestGuildMembers (serializeRequestGuildMembers r) = some r
      | .error _ => True) ∧
    (∀ u : UserId,
      deserializeRequestGuildMemberId
          (serializeRequestGuildMemberId (RequestGuildMemberId.Multiple [u])) =
        some (RequestGuildMemberId.Multiple [u])) ∧
    (∀ u : UserId, RequestGuildMemberId.Multiple [u] ≠ RequestGuildMemberId.One u) ∧
    (∀ (b : RequestGuildMembersBuilder) (u : UserId),
      (serializeRequestGuildMembersInfo (b.user_id u).d).getField "limit" = none ∧
      (serializeRequestGuildMembersInfo (b.user_id u).d).getField "query" = none) ∧
    (∀ (b : RequestGuildMembersBuilder) (q : String) (l : Option Nat),
      (serializeRequestGuildMembersInfo (b._query q l).d).getField "user_ids" = none) := by
  refine ⟨fun b q l => serializeRequestGuildMembers_roundtrip _,
    fun b u => serializeRequestGuildMembers_roundtrip _,
    fun b ids => ?_, fun u => serializeRequestGuildMemberId_roundtrip _,
    fun u => by simp, fun b u => ?_, fun b q l => ?_⟩
  · by_cases h : 100 < ids.length
    · simp [RequestGuildMembersBuilder._user_ids, h]
    · simp [RequestGuildMembersBuilder._user_ids, h,
        serializeRequestGuildMembers_roundtrip]
  · obtain ⟨gd, n, p⟩ := b
    cases n <;> cases p <;> exact ⟨rfl, rfl⟩
  · obtain ⟨gd, n, p⟩ := b
    cases n <;> cases p <;> rfl

/-- Claim C10: the `From<T>` conversion always yields the `One` variant and
the `From<Vec<T>>` conversion always yields the `Multiple` variant wrapping
exactly the given vector; in particular a one-element vector converts to
`Multiple`, never to `One`. -/
theorem c10_from_conversions (u : UserId) (ids : List UserId) :
    RequestGuildMemberId.fromId u = RequestGuildMemberId.One u ∧
    RequestGuildMemberId.fromVec ids = RequestGuildMemberId.Multiple ids ∧
    RequestGuildMemberId.fromVec [u] ≠ RequestGuildMemberId.fromId u := by
  refine ⟨rfl, rfl, ?_⟩
  simp [RequestGuildMemberId.fromVec, RequestGuildMemberId.fromId]

end Twilight
